import Mathlib

/-!
Verification of the image-editor application (`src/App.tsx`,
`src/services/geminiService.ts`, `src/components/ResizePanel.tsx`).

The React component state of `App.tsx` is embedded as an explicit record
`AppState`; each `useState` hook becomes a field, and every handler becomes a
state-transformer `AppState → AppState`.  Asynchronous calls to the generative
service (and the browser canvas pipeline, which cannot be modelled) are
represented by an `Except String String` parameter holding the outcome the
call would have produced: `.ok url` for a resolved data URL, `.error msg` for
a thrown `Error` with message `msg`.  `Date.now()` is passed in as a `now`
parameter.  JS numbers appearing in the pixel arithmetic are modelled as exact
rationals (the decimal literals of the source denote the same rationals).
-/

namespace ImageEditor

/-- A browser `File`: name, MIME type, and the payload (bytes abstracted as
their base64 text, as produced by `dataURLtoFile` in `App.tsx`). -/
structure JsFile where
  name : String
  mime : String
  payload : String
deriving DecidableEq, Repr

/-- A pixel coordinate pair, as used for `editHotspot` / `displayHotspot`. -/
structure Hotspot where
  x : Int
  y : Int
deriving DecidableEq, Repr

/-- A crop selection (the `Crop` / `PixelCrop` values of `react-image-crop`);
only its presence/absence matters to the claims, but we keep the rectangle. -/
structure CropSel where
  x : ℚ
  y : ℚ
  width : ℚ
  height : ℚ
deriving DecidableEq, Repr

/-- The `colorAdjustments` record of `App.tsx`. -/
structure ColorAdjustments where
  brightness : Int
  contrast : Int
  saturation : Int
deriving DecidableEq, Repr

/-- The active tool tab of `App.tsx`. -/
inductive Tab where
  | retouch | ai_edit | faceswap | adjust | filters | crop | resize | color
deriving DecidableEq, Repr

/-- The component state of `App.tsx`: one field per `useState` hook that the
claims touch. -/
structure AppState where
  history : List JsFile
  historyIndex : Int
  prompt : String
  isLoading : Bool
  isUiReady : Bool
  error : Option String
  editHotspot : Option Hotspot
  displayHotspot : Option Hotspot
  activeTab : Tab
  secondaryImage : Option JsFile
  crop : Option CropSel
  completedCrop : Option CropSel
  colorAdjustments : ColorAdjustments
  isComparingModeActive : Bool
deriving DecidableEq, Repr

/-- The initial state of the `App` component (the `useState` initialisers). -/
def initialState : AppState where
  history := []
  historyIndex := -1
  prompt := ""
  isLoading := false
  isUiReady := true
  error := none
  editHotspot := none
  displayHotspot := none
  activeTab := .retouch
  secondaryImage := none
  crop := none
  completedCrop := none
  colorAdjustments := { brightness := 100, contrast := 100, saturation := 100 }
  isComparingModeActive := false

/-- Source `const currentImage = history[historyIndex] ?? null;` — JS indexing with a
negative or out-of-range index yields `undefined`, hence `null`. -/
def currentImage (st : AppState) : Option JsFile :=
  if st.historyIndex < 0 then none else st.history[st.historyIndex.toNat]?

/-- Source `const canUndo = historyIndex > 0;` -/
def canUndo (st : AppState) : Bool := st.historyIndex > 0

/-- Source `const canRedo = historyIndex < history.length - 1;` -/
def canRedo (st : AppState) : Bool := st.historyIndex < (st.history.length : Int) - 1

/-- Source `resetTransientStates` from `App.tsx`. -/
def resetTransientStates (st : AppState) : AppState :=
  { st with
    editHotspot := none
    displayHotspot := none
    crop := none
    completedCrop := none
    secondaryImage := none
    colorAdjustments := { brightness := 100, contrast := 100, saturation := 100 }
    isComparingModeActive := false }

/-- Source `addImageToHistory` from `App.tsx`: truncate the history to positions
`0..historyIndex` (`history.slice(0, historyIndex + 1)`), push the new file,
point the index at the new last entry, and reset the crop, the secondary
image, the colour adjustments and the comparing flag (the hotspots are not
touched here). -/
def addImageToHistory (newImageFile : JsFile) (st : AppState) : AppState :=
  let newHistory := st.history.take (st.historyIndex + 1).toNat ++ [newImageFile]
  { st with
    isUiReady := false
    history := newHistory
    historyIndex := (newHistory.length : Int) - 1
    crop := none
    completedCrop := none
    secondaryImage := none
    colorAdjustments := { brightness := 100, contrast := 100, saturation := 100 }
    isComparingModeActive := false }

/-- Source `handleUndo` from `App.tsx`. -/
def handleUndo (st : AppState) : AppState :=
  if canUndo st then
    resetTransientStates { st with isUiReady := false, historyIndex := st.historyIndex - 1 }
  else st

/-- Source `handleRedo` from `App.tsx`. -/
def handleRedo (st : AppState) : AppState :=
  if canRedo st then
    resetTransientStates { st with isUiReady := false, historyIndex := st.historyIndex + 1 }
  else st

/-- Source `handleImageUpload` from `App.tsx`. -/
def handleImageUpload (file : JsFile) (st : AppState) : AppState :=
  resetTransientStates
    { st with
      isUiReady := false
      error := none
      history := [file]
      historyIndex := 0
      activeTab := .retouch }

/-- Source `handleReset` from `App.tsx`. -/
def handleReset (st : AppState) : AppState :=
  if st.history.length > 0 then
    resetTransientStates { st with isUiReady := false, historyIndex := 0, error := none }
  else st

/-- Source `handleUploadNew` from `App.tsx`. -/
def handleUploadNew (st : AppState) : AppState :=
  resetTransientStates
    { st with history := [], historyIndex := -1, error := none, prompt := "" }

/-- Folding `addImageToHistory` over a list of files: one commit per file. -/
def commitAll (st : AppState) (fs : List JsFile) : AppState :=
  fs.foldl (fun s f => addImageToHistory f s) st

/-- The capture group of the first match of the regex `/:(.*?);/` in `s` (as in
`arr[0].match(/:(.*?);/)` of `dataURLtoFile`): the text between the first `:`
that is followed by some later `;` and the first `;` after it; `none` when the
regex does not match. -/
def mimeMatchGroup (s : String) : Option String :=
  go s.data
where
  go : List Char → Option String
    | [] => none
    | c :: rest =>
      if c = ':' ∧ rest.contains ';' then some ⟨rest.takeWhile (· ≠ ';')⟩
      else go rest

/-- Source `dataURLtoFile` from `App.tsx`: split on `,`, parse the MIME type from the
header with `/:(.*?);/` (an empty capture group is falsy in JS and also
throws), and build the `File`.  The `atob` byte decoding is abstracted: the
file payload keeps the base64 text between the first and second comma
(`arr[1]`). -/
def dataURLtoFile (dataurl filename : String) : Except String JsFile :=
  let arr := dataurl.splitOn ","
  if arr.length < 2 then .error "Invalid data URL"
  else
    match mimeMatchGroup (arr.headD "") with
    | none => .error "Could not parse MIME type from data URL"
    | some mime =>
      if mime = "" then .error "Could not parse MIME type from data URL"
      else .ok { name := filename, mime := mime, payload := (arr.get? 1).getD "" }

/-! ### The Gemini service response (`src/services/geminiService.ts`) -/

/-- An inline-data blob of a response part. -/
structure InlineData where
  mimeType : String
  data : String
deriving DecidableEq, Repr

/-- One part of a candidate's content: an inline image and/or text. -/
structure RespPart where
  inlineData : Option InlineData
  text : Option String
deriving DecidableEq, Repr

/-- A candidate's content. -/
structure RespContent where
  parts : Option (List RespPart)
deriving DecidableEq, Repr

/-- One response candidate. -/
structure Candidate where
  content : Option RespContent
  finishReason : Option String
deriving DecidableEq, Repr

/-- The `promptFeedback` object of a response. -/
structure PromptFeedback where
  blockReason : Option String
  blockReasonMessage : Option String
deriving DecidableEq, Repr

/-- A `GenerateContentResponse`; `text` is the SDK's accessor for the model's
text output (`response.text`). -/
structure GenResponse where
  promptFeedback : Option PromptFeedback
  candidates : Option (List Candidate)
  text : Option String
deriving DecidableEq, Repr

/-- JS truthiness of an optional string: present and non-empty. -/
def strTruthy : Option String → Bool
  | none => false
  | some s => s ≠ ""

/-- Source `response.promptFeedback?.blockReason` as an optional string. -/
def blockReasonOf (r : GenResponse) : Option String :=
  r.promptFeedback.bind (·.blockReason)

/-- Source `response.promptFeedback?.blockReasonMessage` as an optional string. -/
def blockReasonMessageOf (r : GenResponse) : Option String :=
  r.promptFeedback.bind (·.blockReasonMessage)

/-- Source `response.candidates?.[0]?.content?.parts?.find(part => part.inlineData)`:
the first part of the first candidate carrying inline data. -/
def firstImagePart (r : GenResponse) : Option RespPart :=
  ((((r.candidates.bind (·.head?)).bind (·.content)).bind (·.parts)).bind
    (·.find? (·.inlineData.isSome)))

/-- Source `response.candidates?.[0]?.finishReason`. -/
def finishReasonOf (r : GenResponse) : Option String :=
  (r.candidates.bind (·.head?)).bind (·.finishReason)

/-- The error message thrown when the prompt was blocked. -/
def blockErrorMsg (r : GenResponse) : String :=
  "Request was blocked. Reason: " ++ (blockReasonOf r).getD "" ++ ". " ++
    (if strTruthy (blockReasonMessageOf r) then (blockReasonMessageOf r).getD "" else "")

/-- The error message thrown on a non-`STOP` finish reason without an image. -/
def finishErrorMsg (context : String) (r : GenResponse) : String :=
  "Image generation for " ++ context ++ " stopped unexpectedly. Reason: " ++
    (finishReasonOf r).getD "" ++ ". This often relates to safety settings."

/-- The fallback error message when no image part is present. -/
def noImageErrorMsg (context : String) (r : GenResponse) : String :=
  "The AI model did not return an image for the " ++ context ++ ". " ++
    (match r.text.map (·.trim) with
     | some t =>
       if t ≠ "" then "The model responded with text: \"" ++ t ++ "\""
       else "This can happen due to safety filters or if the request is too complex. Please try rephrasing your prompt to be more direct."
     | none => "This can happen due to safety filters or if the request is too complex. Please try rephrasing your prompt to be more direct.")

/-- Source `handleApiResponse` from `geminiService.ts`: block-reason check first, then
the first inline-image part is returned as a data URL, otherwise an error is
thrown carrying the finish reason or the model's text. -/
def handleApiResponse (r : GenResponse) (context : String) : Except String String :=
  if strTruthy (blockReasonOf r) then .error (blockErrorMsg r)
  else
    match (firstImagePart r).bind (·.inlineData) with
    | some d => .ok ("data:" ++ d.mimeType ++ ";base64," ++ d.data)
    | none =>
      let fr := finishReasonOf r
      if strTruthy fr ∧ fr ≠ some "STOP" then .error (finishErrorMsg context r)
      else .error (noImageErrorMsg context r)

/-! ### The edit handlers of `App.tsx`

Each `async` handler takes the outcome of its awaited service call (or, for
the canvas-based operations, of the canvas pipeline ending in
`canvas.toDataURL`) as an `Except String String`, and `Date.now()` as `now`.
A thrown error anywhere inside the `try` block lands in the `catch`, which
sets the error message; the `finally` clears the loading flag. -/

/-- The millisecond delay of the `ErrorToast` auto-dismiss timer
(`setTimeout(() => onDismiss(), 5000)`). -/
def errorToastAutoDismissMs : ℕ := 5000

/-- JS `String.prototype.trim()`: strip leading and trailing whitespace. -/
def jsTrim (s : String) : String :=
  ⟨((s.data.dropWhile Char.isWhitespace).reverse.dropWhile Char.isWhitespace).reverse⟩

/-- Source `handleGenerate` from `App.tsx` (the retouch edit). -/
def handleGenerate (st : AppState) (svc : Except String String) (now : ℕ) : AppState :=
  if (currentImage st).isNone then
    { st with error := some "ยังไม่ได้โหลดรูปภาพเพื่อแก้ไข" }
  else if jsTrim st.prompt = "" then
    { st with error := some "กรุณาใส่คำอธิบายการแก้ไขของคุณ" }
  else if st.editHotspot.isNone then
    { st with error := some "กรุณาคลิกบนภาพเพื่อเลือกพื้นที่ที่ต้องการแก้ไข" }
  else
    let st1 := { st with isLoading := true, error := none }
    match svc.bind (fun url => dataURLtoFile url ("edited-" ++ toString now ++ ".png")) with
    | .ok f =>
      let st2 := addImageToHistory f st1
      { st2 with editHotspot := none, displayHotspot := none, isLoading := false }
    | .error e =>
      { st1 with error := some ("สร้างรูปภาพไม่สำเร็จ " ++ e), isLoading := false }

/-- Source `handleApplyFilter` from `App.tsx` (AI filter). -/
def handleApplyFilter (st : AppState) (_filterPrompt : String)
    (svc : Except String String) (now : ℕ) : AppState :=
  if (currentImage st).isNone then
    { st with error := some "ยังไม่ได้โหลดรูปภาพเพื่อใช้ฟิลเตอร์" }
  else
    let st1 := { st with isLoading := true, error := none }
    match svc.bind (fun url => dataURLtoFile url ("filtered-" ++ toString now ++ ".png")) with
    | .ok f => { addImageToHistory f st1 with isLoading := false }
    | .error e =>
      { st1 with error := some ("ใช้ฟิลเตอร์ไม่สำเร็จ " ++ e), isLoading := false }

/-- The client-side filter selector of `applyCanvasFilter`. -/
inductive FilterKind where
  | grayscale | sepia
deriving DecidableEq, Repr

/-- The string name of a client-side filter. -/
def FilterKind.str : FilterKind → String
  | .grayscale => "grayscale"
  | .sepia => "sepia"

/-- Source `applyCanvasFilter` from `App.tsx`, state part: the canvas pipeline
(image decode, per-pixel loop, `toDataURL`) is summarised by `canvasResult`;
the per-pixel arithmetic itself is embedded separately below. -/
def applyCanvasFilter (st : AppState) (filter : FilterKind)
    (canvasResult : Except String String) (now : ℕ) : AppState :=
  if (currentImage st).isNone then
    { st with error := some "ยังไม่ได้โหลดรูปภาพเพื่อใช้ฟิลเตอร์" }
  else
    let st1 := { st with isLoading := true, error := none }
    match canvasResult.bind
        (fun url => dataURLtoFile url ("filtered-" ++ filter.str ++ "-" ++ toString now ++ ".png")) with
    | .ok f => { addImageToHistory f st1 with isLoading := false }
    | .error e =>
      { st1 with error := some ("ใช้ฟิลเตอร์ไม่สำเร็จ " ++ e), isLoading := false }

/-- Source `handleRotate` from `App.tsx`. -/
def handleRotate (st : AppState) (canvasResult : Except String String) (now : ℕ) : AppState :=
  if (currentImage st).isNone then
    { st with error := some "ยังไม่ได้โหลดรูปภาพเพื่อหมุน" }
  else
    let st1 := { st with isLoading := true, error := none }
    match canvasResult.bind
        (fun url => dataURLtoFile url ("rotated-" ++ toString now ++ ".png")) with
    | .ok f => { addImageToHistory f st1 with isLoading := false }
    | .error e =>
      { st1 with error := some ("หมุนภาพไม่สำเร็จ: " ++ e), isLoading := false }

/-- Source `handleApplyAdjustment` from `App.tsx` (AI global adjustment). -/
def handleApplyAdjustment (st : AppState) (_adjustmentPrompt : String)
    (svc : Except String String) (now : ℕ) : AppState :=
  if (currentImage st).isNone then
    { st with error := some "ยังไม่ได้โหลดรูปภาพเพื่อปรับแต่ง" }
  else
    let st1 := { st with isLoading := true, error := none }
    match svc.bind (fun url => dataURLtoFile url ("adjusted-" ++ toString now ++ ".png")) with
    | .ok f => { addImageToHistory f st1 with isLoading := false }
    | .error e =>
      { st1 with error := some ("ปรับแต่งไม่สำเร็จ " ++ e), isLoading := false }

/-- Source `handleApplyAiEdit` from `App.tsx` (creative AI edit). -/
def handleApplyAiEdit (st : AppState) (_editPrompt : String)
    (svc : Except String String) (now : ℕ) : AppState :=
  if (currentImage st).isNone then
    { st with error := some "ยังไม่ได้โหลดรูปภาพเพื่อแก้ไข" }
  else
    let st1 := { st with isLoading := true, error := none }
    match svc.bind (fun url => dataURLtoFile url ("ai-edited-" ++ toString now ++ ".png")) with
    | .ok f => { addImageToHistory f st1 with isLoading := false }
    | .error e =>
      { st1 with error := some ("แก้ไขภาพด้วย AI ไม่สำเร็จ: " ++ e), isLoading := false }

/-- Source `handleApplyFaceSwap` from `App.tsx`. -/
def handleApplyFaceSwap (st : AppState) (svc : Except String String) (now : ℕ) : AppState :=
  if (currentImage st).isNone ∨ st.secondaryImage.isNone then
    { st with error := some "กรุณาอัปโหลดทั้งภาพต้นฉบับและภาพเป้าหมายเพื่อทำการสลับใบหน้า" }
  else
    let st1 := { st with isLoading := true, error := none }
    match svc.bind (fun url => dataURLtoFile url ("faceswap-" ++ toString now ++ ".png")) with
    | .ok f => { addImageToHistory f st1 with isLoading := false }
    | .error e =>
      { st1 with error := some ("สลับใบหน้าไม่สำเร็จ " ++ e), isLoading := false }

/-- Source `handleApplyResize` from `App.tsx`. -/
def handleApplyResize (st : AppState) (_width _height : Int)
    (canvasResult : Except String String) (now : ℕ) : AppState :=
  if (currentImage st).isNone then
    { st with error := some "ยังไม่ได้โหลดรูปภาพเพื่อปรับขนาด" }
  else
    let st1 := { st with isLoading := true, error := none }
    match canvasResult.bind
        (fun url => dataURLtoFile url ("resized-" ++ toString now ++ ".png")) with
    | .ok f => { addImageToHistory f st1 with isLoading := false }
    | .error e =>
      { st1 with error := some ("ปรับขนาดภาพไม่สำเร็จ: " ++ e), isLoading := false }

/-- Source `handleApplyColorAdjustments` from `App.tsx`: after the image guard, an
all-`100` adjustment triple returns with no change at all. -/
def handleApplyColorAdjustments (st : AppState)
    (canvasResult : Except String String) (now : ℕ) : AppState :=
  if (currentImage st).isNone then
    { st with error := some "No image loaded to adjust." }
  else if st.colorAdjustments.brightness = 100 ∧ st.colorAdjustments.contrast = 100 ∧
      st.colorAdjustments.saturation = 100 then
    st
  else
    let st1 := { st with isLoading := true, error := none }
    match canvasResult.bind
        (fun url => dataURLtoFile url ("color-adjusted-" ++ toString now ++ ".png")) with
    | .ok f => { addImageToHistory f st1 with isLoading := false }
    | .error e =>
      { st1 with error := some ("Failed to apply color adjustments: " ++ e), isLoading := false }

/-! ### The per-pixel client-side filters (`applyCanvasFilter`, lines 330-348)

One RGBA pixel of the `ImageData` array; JS number arithmetic on the small
integer channel values is modelled by exact rationals (the decimal literals of
the source denote exactly these rationals). -/

/-- One RGBA pixel: the values `data[i] .. data[i+3]` for one `i` of the loop. -/
structure Pixel where
  r : ℚ
  g : ℚ
  b : ℚ
  a : ℚ
deriving DecidableEq, Repr

/-- The `filter === 'grayscale'` branch of the pixel loop:
`gray = (r + g + b) / 3` written to all three colour channels. -/
def grayscalePixel (p : Pixel) : Pixel :=
  let gray := (p.r + p.g + p.b) / 3
  { r := gray, g := gray, b := gray, a := p.a }

/-- The `filter === 'sepia'` branch of the pixel loop: the three weighted sums
each capped at `255` by `Math.min`. -/
def sepiaPixel (p : Pixel) : Pixel :=
  { r := min 255 (p.r * 0.393 + p.g * 0.769 + p.b * 0.189)
    g := min 255 (p.r * 0.349 + p.g * 0.686 + p.b * 0.168)
    b := min 255 (p.r * 0.272 + p.g * 0.534 + p.b * 0.131)
    a := p.a }

/-- The branch dispatch of the loop body on one pixel. -/
def filterPixel : FilterKind → Pixel → Pixel
  | .grayscale => grayscalePixel
  | .sepia => sepiaPixel

/-- The `for (let i = 0; i < data.length; i += 4)` loop over the flat RGBA
array; `ImageData` guarantees a multiple of four, so a shorter tail (left
unchanged here) never occurs. -/
def filterLoop (filter : FilterKind) : List ℚ → List ℚ
  | r :: g :: b :: a :: rest =>
    let q := filterPixel filter { r := r, g := g, b := b, a := a }
    q.r :: q.g :: q.b :: q.a :: filterLoop filter rest
  | data => data

/-! ### The resize panel (`src/components/ResizePanel.tsx`) -/

/-- Source `Math.round`: round to the nearest integer, halves toward `+∞`. -/
def jsMathRound (q : ℚ) : ℤ := ⌊q + 1 / 2⌋

/-- The component state of `ResizePanel`: the two text inputs and the
aspect-ratio lock. -/
structure ResizeState where
  width : String
  height : String
  isLocked : Bool
deriving DecidableEq, Repr

/-- Source `const aspectRatio = originalWidth > 0 && originalHeight > 0 ?
originalWidth / originalHeight : 1;` -/
def aspectRatioOf (ow oh : ℕ) : ℚ :=
  if 0 < ow ∧ 0 < oh then (ow : ℚ) / (oh : ℚ) else 1

/-- Source `parseInt(s, 10)` restricted to the plain decimal digit strings at issue:
a non-empty all-digit string parses to its value, anything else to `none`
(standing for `NaN`). -/
def parseDecimal (s : String) : Option ℕ :=
  if s.data ≠ [] ∧ s.data.all Char.isDigit then
    some (s.data.foldl (fun n c => 10 * n + (c.toNat - Char.toNat '0')) 0)
  else none

/-- Source `handleWidthChange` from `ResizePanel.tsx`. -/
def handleWidthChange (ow oh : ℕ) (st : ResizeState) (input : String) : ResizeState :=
  let st1 := { st with width := input }
  if st.isLocked ∧ input ≠ "" then
    match parseDecimal input with
    | some n =>
      if 0 < n then
        { st1 with height := toString (jsMathRound ((n : ℚ) / aspectRatioOf ow oh)) }
      else st1
    | none => st1
  else st1

/-- Source `handleHeightChange` from `ResizePanel.tsx`. -/
def handleHeightChange (ow oh : ℕ) (st : ResizeState) (input : String) : ResizeState :=
  let st1 := { st with height := input }
  if st.isLocked ∧ input ≠ "" then
    match parseDecimal input with
    | some n =>
      if 0 < n then
        { st1 with width := toString (jsMathRound ((n : ℚ) * aspectRatioOf ow oh)) }
      else st1
    | none => st1
  else st1

/-! ### Reachable states of the history (for the bounds invariant) -/

/-- The editor operations that touch the version history. -/
inductive Ev where
  | upload (f : JsFile)
  | commit (f : JsFile)
  | undo
  | redo
  | reset
  | uploadNew
deriving DecidableEq, Repr

/-- One operation applied to the state. -/
def step (st : AppState) : Ev → AppState
  | .upload f => handleImageUpload f st
  | .commit f => addImageToHistory f st
  | .undo => handleUndo st
  | .redo => handleRedo st
  | .reset => handleReset st
  | .uploadNew => handleUploadNew st

/-- The state reached from the initial state by a list of operations. -/
def reach (evs : List Ev) : AppState :=
  evs.foldl step initialState

/-- The history-bounds invariant of the spec: the position is inside
`[0, length - 1]` once the history is non-empty, and `-1` while it is empty. -/
def HistInv (st : AppState) : Prop :=
  (st.history = [] → st.historyIndex = -1) ∧
  (st.history ≠ [] → 0 ≤ st.historyIndex ∧ st.historyIndex ≤ (st.history.length : Int) - 1)

/-! ### Helper lemmas and concrete states -/

/-- A concrete image file used for witnesses. -/
def testFile : JsFile := { name := "a.png", mime := "image/png", payload := "QUFBQQ==" }

/-- A second concrete image file. -/
def testFile2 : JsFile := { name := "b.png", mime := "image/png", payload := "QkJCQg==" }

/-- A concrete state with a retouch hotspot selected. -/
def hotspotState : AppState :=
  { initialState with
    history := [testFile]
    historyIndex := 0
    editHotspot := some { x := 1, y := 2 }
    displayHotspot := some { x := 3, y := 4 } }

/-- All transient edit state is at its cleared/default value. -/
def TransientCleared (st : AppState) : Prop :=
  st.editHotspot = none ∧ st.displayHotspot = none ∧ st.crop = none ∧
  st.completedCrop = none ∧ st.secondaryImage = none ∧
  st.colorAdjustments = { brightness := 100, contrast := 100, saturation := 100 }

lemma addImageToHistory_top (f : JsFile) (st : AppState)
    (h : st.historyIndex = (st.history.length : Int) - 1) :
    (addImageToHistory f st).history = st.history ++ [f] ∧
    (addImageToHistory f st).historyIndex = (st.history.length : Int) := by
  have h1 : (st.historyIndex + 1).toNat = st.history.length := by omega
  refine ⟨?_, ?_⟩
  · simp [addImageToHistory, h1]
  · simp [addImageToHistory, h1]

lemma commitAll_cons (st : AppState) (f : JsFile) (fs : List JsFile) :
    commitAll st (f :: fs) = commitAll (addImageToHistory f st) fs := rfl

lemma commitAll_from_top (fs : List JsFile) :
    ∀ st : AppState, st.historyIndex = (st.history.length : Int) - 1 →
      (commitAll st fs).history = st.history ++ fs ∧
      (commitAll st fs).historyIndex = ((st.history.length : Int) + fs.length) - 1 := by
  induction fs with
  | nil => intro st h; simpa [commitAll] using h
  | cons f fs ih =>
    intro st h
    have h2 := addImageToHistory_top f st h
    have h3 : (addImageToHistory f st).historyIndex =
        ((addImageToHistory f st).history.length : Int) - 1 := by
      rw [h2.1, h2.2]; simp
    have h4 := ih (addImageToHistory f st) h3
    rw [commitAll_cons]
    refine ⟨?_, ?_⟩
    · rw [h4.1, h2.1]; simp
    · rw [h4.2, h2.1]; simp; omega

lemma upload_initial (f0 : JsFile) :
    (handleImageUpload f0 initialState).history = [f0] ∧
    (handleImageUpload f0 initialState).historyIndex = 0 := by
  constructor <;> rfl

lemma commitAll_upload (f0 : JsFile) (fs : List JsFile) :
    (commitAll (handleImageUpload f0 initialState) fs).history = f0 :: fs ∧
    (commitAll (handleImageUpload f0 initialState) fs).historyIndex = (fs.length : Int) := by
  have h := commitAll_from_top fs (handleImageUpload f0 initialState)
    (by rw [(upload_initial f0).1, (upload_initial f0).2]; rfl)
  rw [(upload_initial f0).1] at h
  refine ⟨by simpa using h.1, by simpa using h.2⟩

lemma currentImage_nonneg (st : AppState) (h : 0 ≤ st.historyIndex) :
    currentImage st = st.history[st.historyIndex.toNat]? := by
  simp [currentImage]
  omega

lemma handleUndo_history (st : AppState) : (handleUndo st).history = st.history := by
  unfold handleUndo
  split <;> simp [resetTransientStates]

lemma handleUndo_index (st : AppState) (h : 0 < st.historyIndex) :
    (handleUndo st).historyIndex = st.historyIndex - 1 := by
  unfold handleUndo
  rw [if_pos (by simp [canUndo, h])]
  simp [resetTransientStates]

lemma handleRedo_history (st : AppState) : (handleRedo st).history = st.history := by
  unfold handleRedo
  split <;> simp [resetTransientStates]

lemma handleRedo_index (st : AppState) (h : st.historyIndex < (st.history.length : Int) - 1) :
    (handleRedo st).historyIndex = st.historyIndex + 1 := by
  unfold handleRedo
  rw [if_pos (by simp [canRedo]; omega)]
  simp [resetTransientStates]

/-! ### C1: undo/redo navigation and redo-branch truncation -/

/-- C1.  After uploading version 0 and committing versions `1..N`
(`N = fs.length`), the displayed image is version `N`; undo displays version
`N - 1` and a subsequent redo displays version `N` again.  Moreover a commit
from any in-bounds position truncates the history to positions
`0..historyIndex`, appends the new file, and moves the position to the new
last entry (which becomes the displayed image). -/
theorem undo_redo_commit_truncation (f0 : JsFile) (fs : List JsFile) (f : JsFile)
    (st : AppState) :
    (commitAll (handleImageUpload f0 initialState) fs).history = f0 :: fs ∧
    (commitAll (handleImageUpload f0 initialState) fs).historyIndex = (fs.length : Int) ∧
    currentImage (commitAll (handleImageUpload f0 initialState) fs) = (f0 :: fs)[fs.length]? ∧
    (fs ≠ [] →
      currentImage (handleUndo (commitAll (handleImageUpload f0 initialState) fs))
        = (f0 :: fs)[fs.length - 1]? ∧
      currentImage (handleRedo (handleUndo (commitAll (handleImageUpload f0 initialState) fs)))
        = (f0 :: fs)[fs.length]?) ∧
    (0 ≤ st.historyIndex → st.historyIndex ≤ (st.history.length : Int) - 1 →
      (addImageToHistory f st).history
        = st.history.take (st.historyIndex + 1).toNat ++ [f] ∧
      (addImageToHistory f st).historyIndex = st.historyIndex + 1 ∧
      currentImage (addImageToHistory f st) = some f) := by
  obtain ⟨hh, hi⟩ := commitAll_upload f0 fs
  refine ⟨hh, hi, ?_, ?_, ?_⟩
  · rw [currentImage_nonneg _ (by rw [hi]; exact_mod_cast Nat.zero_le _), hh, hi]
    simp
  · intro hfs
    have hlen : 0 < fs.length := List.length_pos.mpr hfs
    have hui := handleUndo_index (commitAll (handleImageUpload f0 initialState) fs)
      (by rw [hi]; exact_mod_cast hlen)
    have huh := handleUndo_history (commitAll (handleImageUpload f0 initialState) fs)
    rw [hi] at hui
    constructor
    · rw [currentImage_nonneg _ (by rw [hui]; omega), huh, hh, hui]
      congr 1
      omega
    · have hri := handleRedo_index (handleUndo (commitAll (handleImageUpload f0 initialState) fs))
        (by rw [hui, huh, hh]; simp)
      have hrh := handleRedo_history (handleUndo (commitAll (handleImageUpload f0 initialState) fs))
      rw [hui] at hri
      rw [currentImage_nonneg _ (by rw [hri]; omega), hrh, huh, hh, hri]
      congr 1
      omega
  · intro h0 h1
    have htake : ((st.historyIndex + 1).toNat) ≤ st.history.length := by omega
    have hlen : (st.history.take (st.historyIndex + 1).toNat ++ [f]).length
        = (st.historyIndex + 1).toNat + 1 := by
      simp [List.length_take]
      omega
    refine ⟨rfl, ?_, ?_⟩
    · show ((st.history.take (st.historyIndex + 1).toNat ++ [f]).length : Int) - 1
        = st.historyIndex + 1
      rw [hlen]
      push_cast
      omega
    · have hidx : (addImageToHistory f st).historyIndex = st.historyIndex + 1 := by
        show ((st.history.take (st.historyIndex + 1).toNat ++ [f]).length : Int) - 1
          = st.historyIndex + 1
        rw [hlen]; push_cast; omega
      rw [currentImage_nonneg _ (by rw [hidx]; omega), hidx]
      show (st.history.take (st.historyIndex + 1).toNat ++ [f])[(st.historyIndex + 1).toNat]? = some f
      have hlt : (st.history.take (st.historyIndex + 1).toNat).length
          ≤ (st.historyIndex + 1).toNat := by
        simp [List.length_take]
      rw [List.getElem?_append_right hlt]
      have hz : (st.historyIndex + 1).toNat
          - (st.history.take (st.historyIndex + 1).toNat).length = 0 := by
        simp [List.length_take]
        omega
      rw [hz]
      rfl

/-- Witness for `undo_redo_commit_truncation` at a concrete two-commit run. -/
theorem undo_redo_commit_truncation_witness :
    currentImage (handleUndo (commitAll (handleImageUpload testFile initialState)
        [testFile2, testFile]))
      = ([testFile, testFile2, testFile] : List JsFile)[1]? ∧
    (addImageToHistory testFile2 hotspotState).history = [testFile, testFile2] := by
  have h := undo_redo_commit_truncation testFile [testFile2, testFile] testFile2 hotspotState
  refine ⟨?_, ?_⟩
  · exact (h.2.2.2.1 (by decide)).1
  · have := (h.2.2.2.2 (by decide) (by decide)).1
    simpa [hotspotState, initialState] using this

/-! ### C2: the history-bounds invariant over all reachable states -/

lemma histInv_initial : HistInv initialState := by
  constructor
  · intro _; rfl
  · intro h; exact absurd rfl h

lemma histInv_step (st : AppState) (h : HistInv st) (e : Ev) : HistInv (step st e) := by
  obtain ⟨hemp, hne⟩ := h
  cases e with
  | upload f =>
    constructor
    · intro hcon
      simp [step, handleImageUpload, resetTransientStates] at hcon
    · intro _
      simp [step, handleImageUpload, resetTransientStates]
  | commit f =>
    constructor
    · intro hcon
      simp [step, addImageToHistory] at hcon
    · intro _
      simp [step, addImageToHistory, List.length_take]
  | undo =>
    simp only [step, handleUndo]
    split
    · rename_i hc
      simp only [canUndo, decide_eq_true_eq] at hc
      have hnil : st.history ≠ [] := by
        intro hx
        have := hemp hx
        omega
      have := hne hnil
      constructor
      · intro hcon
        simp [resetTransientStates] at hcon
        exact absurd hcon hnil
      · intro _
        simp [resetTransientStates]
        omega
    · exact ⟨hemp, hne⟩
  | redo =>
    simp only [step, handleRedo]
    split
    · rename_i hc
      simp only [canRedo, decide_eq_true_eq] at hc
      have hnil : st.history ≠ [] := by
        intro hx
        have := hemp hx
        rw [hx] at hc
        simp at hc
        omega
      have := hne hnil
      constructor
      · intro hcon
        simp [resetTransientStates] at hcon
        exact absurd hcon hnil
      · intro _
        simp [resetTransientStates]
        omega
    · exact ⟨hemp, hne⟩
  | reset =>
    simp only [step, handleReset]
    split
    · rename_i hc
      constructor
      · intro hcon
        simp [resetTransientStates] at hcon
        rw [hcon] at hc
        simp at hc
      · intro _
        simp [resetTransientStates]
        omega
    · exact ⟨hemp, hne⟩
  | uploadNew =>
    constructor
    · intro _
      rfl
    · intro hcon
      simp [step, handleUploadNew, resetTransientStates] at hcon

lemma histInv_foldl (evs : List Ev) :
    ∀ st : AppState, HistInv st → HistInv (evs.foldl step st) := by
  induction evs with
  | nil => intro st h; exact h
  | cons e evs ih =>
    intro st h
    exact ih (step st e) (histInv_step st h e)

/-- C2.  In every state reachable from the initial empty state by the
editor's operations (upload, commit, undo, redo, reset, upload-new), a
non-empty history keeps the position inside `[0, length - 1]`, and an empty
history keeps the position at `-1`. -/
theorem reachable_history_bounds (evs : List Ev) : HistInv (reach evs) :=
  histInv_foldl evs initialState histInv_initial

/-- Witness for `reachable_history_bounds` at a concrete run. -/
theorem reachable_history_bounds_witness :
    0 ≤ (reach [.upload testFile, .commit testFile2, .undo]).historyIndex ∧
    (reach [.upload testFile, .commit testFile2, .undo]).historyIndex
      ≤ ((reach [.upload testFile, .commit testFile2, .undo]).history.length : Int) - 1 :=
  (reachable_history_bounds [.upload testFile, .commit testFile2, .undo]).2 (by decide)

/-! ### C3: transient-state reset on commit and on history moves -/

/-- C3 counterexample.  Committing a new version via `addImageToHistory` from
a state with a selected retouch hotspot does NOT null the hotspot: the claim
that the focal point becomes `null` on every commit is false. -/
theorem commit_keeps_hotspot_counterexample :
    (addImageToHistory testFile2 hotspotState).editHotspot = some { x := 1, y := 2 } ∧
    (addImageToHistory testFile2 hotspotState).displayHotspot = some { x := 3, y := 4 } := by
  constructor <;> rfl

/-- C3 amended.  When the history position changes (`handleUndo`,
`handleRedo`, `handleReset` acting on their guarded states), every piece of
transient edit state resets — hotspots to `null`, crop cleared, secondary
image to `null`, colour adjustments back to `100/100/100`.  A commit
(`addImageToHistory`) clears the crop, the secondary image and the colour
adjustments, but leaves `editHotspot` and `displayHotspot` unchanged (only the
retouch flow nulls them afterwards). -/
theorem transient_reset_on_history_change (st : AppState) (f : JsFile) :
    (0 < st.historyIndex → TransientCleared (handleUndo st)) ∧
    (st.historyIndex < (st.history.length : Int) - 1 → TransientCleared (handleRedo st)) ∧
    (st.history ≠ [] → TransientCleared (handleReset st)) ∧
    ((addImageToHistory f st).crop = none ∧
     (addImageToHistory f st).completedCrop = none ∧
     (addImageToHistory f st).secondaryImage = none ∧
     (addImageToHistory f st).colorAdjustments
        = { brightness := 100, contrast := 100, saturation := 100 } ∧
     (addImageToHistory f st).editHotspot = st.editHotspot ∧
     (addImageToHistory f st).displayHotspot = st.displayHotspot) := by
  refine ⟨?_, ?_, ?_, ?_⟩
  · intro h
    unfold handleUndo
    rw [if_pos (by simp [canUndo, h])]
    simp [TransientCleared, resetTransientStates]
  · intro h
    unfold handleRedo
    rw [if_pos (by simp [canRedo]; omega)]
    simp [TransientCleared, resetTransientStates]
  · intro h
    unfold handleReset
    rw [if_pos (by simpa using List.length_pos.mpr h)]
    simp [TransientCleared, resetTransientStates]
  · exact ⟨rfl, rfl, rfl, rfl, rfl, rfl⟩

/-- A concrete state where undo, redo and reset are all enabled. -/
def midHistoryState : AppState :=
  { hotspotState with
    history := [testFile, testFile2, testFile]
    historyIndex := 1
    secondaryImage := some testFile2
    crop := some { x := 0, y := 0, width := 10, height := 10 }
    completedCrop := some { x := 0, y := 0, width := 10, height := 10 }
    colorAdjustments := { brightness := 120, contrast := 90, saturation := 100 } }

/-- Witness for `transient_reset_on_history_change` at a concrete state. -/
theorem transient_reset_on_history_change_witness :
    TransientCleared (handleUndo midHistoryState) ∧
    TransientCleared (handleRedo midHistoryState) ∧
    TransientCleared (handleReset midHistoryState) ∧
    (addImageToHistory testFile midHistoryState).secondaryImage = none := by
  have h := transient_reset_on_history_change midHistoryState testFile
  exact ⟨h.1 (by decide), h.2.1 (by decide), h.2.2.1 (by decide), h.2.2.2.2.2.1⟩

/-! ### C4: `handleApiResponse` success and error characterisation -/

/-- C4.  `handleApiResponse` returns `data:<mimeType>;base64,<data>` for the
first inline-image part exactly when no block reason is present and such a
part exists; in every other case it throws: the block-reason message when
blocked, the finish-reason message on a non-`STOP` finish reason without an
image, and otherwise the no-image message (which carries the model's text
response when present). -/
theorem handleApiResponse_spec (r : GenResponse) (context : String) :
    ((∃ u, handleApiResponse r context = Except.ok u) ↔
      (strTruthy (blockReasonOf r) = false ∧
        ∃ d, (firstImagePart r).bind (·.inlineData) = some d)) ∧
    (∀ d : InlineData, strTruthy (blockReasonOf r) = false →
      (firstImagePart r).bind (·.inlineData) = some d →
      handleApiResponse r context
        = Except.ok ("data:" ++ d.mimeType ++ ";base64," ++ d.data)) ∧
    (strTruthy (blockReasonOf r) = true →
      handleApiResponse r context = Except.error (blockErrorMsg r)) ∧
    (strTruthy (blockReasonOf r) = false →
      (firstImagePart r).bind (·.inlineData) = none →
      strTruthy (finishReasonOf r) = true → finishReasonOf r ≠ some "STOP" →
      handleApiResponse r context = Except.error (finishErrorMsg context r)) ∧
    (strTruthy (blockReasonOf r) = false →
      (firstImagePart r).bind (·.inlineData) = none →
      ¬(strTruthy (finishReasonOf r) = true ∧ finishReasonOf r ≠ some "STOP") →
      handleApiResponse r context = Except.error (noImageErrorMsg context r)) := by
  refine ⟨⟨?_, ?_⟩, ?_, ?_, ?_, ?_⟩
  · rintro ⟨u, hu⟩
    by_cases hb : strTruthy (blockReasonOf r) = true
    · simp [handleApiResponse, hb] at hu
    · refine ⟨by simpa using hb, ?_⟩
      cases hd : (firstImagePart r).bind (·.inlineData) with
      | some d => exact ⟨d, rfl⟩
      | none =>
        exfalso
        by_cases hf : strTruthy (finishReasonOf r) = true ∧ finishReasonOf r ≠ some "STOP"
        · simp [handleApiResponse, hb, hd, hf] at hu
        · simp [handleApiResponse, hb, hd, hf] at hu
  · rintro ⟨hb, d, hd⟩
    exact ⟨"data:" ++ d.mimeType ++ ";base64," ++ d.data, by simp [handleApiResponse, hb, hd]⟩
  · intro d hb hd
    simp [handleApiResponse, hb, hd]
  · intro hb
    simp [handleApiResponse, hb]
  · intro hb hd ht hne
    simp [handleApiResponse, hb, hd, ht, hne]
  · intro hb hd hnf
    simp only [handleApiResponse, hb, Bool.false_eq_true, if_false, hd]
    rw [if_neg hnf]

/-- A concrete inline-image response part. -/
def okImagePart : RespPart :=
  { inlineData := some { mimeType := "image/png", data := "QUFBQQ==" }, text := none }

/-- A concrete candidate carrying the inline image. -/
def okCandidate : Candidate :=
  { content := some { parts := some [okImagePart] }, finishReason := some "STOP" }

/-- A concrete service response carrying an inline image. -/
def okResponse : GenResponse :=
  { promptFeedback := none, candidates := some [okCandidate], text := none }

/-- A concrete blocked service response. -/
def blockedResponse : GenResponse :=
  { promptFeedback := some { blockReason := some "SAFETY", blockReasonMessage := none },
    candidates := some [], text := none }

/-- Witness for `handleApiResponse_spec` at concrete responses. -/
theorem handleApiResponse_spec_witness :
    handleApiResponse okResponse "edit" = Except.ok "data:image/png;base64,QUFBQQ==" ∧
    handleApiResponse blockedResponse "edit" = Except.error (blockErrorMsg blockedResponse) := by
  refine ⟨?_, ?_⟩
  · exact (handleApiResponse_spec okResponse "edit").2.1
      { mimeType := "image/png", data := "QUFBQQ==" } (by decide) (by decide)
  · exact (handleApiResponse_spec blockedResponse "edit").2.2.1 (by decide)

/-! ### C5: every edit failure is caught, surfaced once, and changes no history -/

/-- A handler run failed cleanly: the history and position are those of the
starting state, the only surfaced effect is the error-notification string,
and the loading flag is back off. -/
def FailsCleanly (res st : AppState) (msg : String) : Prop :=
  res.history = st.history ∧ res.historyIndex = st.historyIndex ∧
  res.error = some msg ∧ res.isLoading = false

/-- C5.  For every edit operation, when the underlying transformation or
service call throws `e`, the handler catches it at the call site, surfaces
only the error-notification string (prefix plus `e`), performs no retry, and
leaves the history and history position unchanged; the notification toast
auto-dismisses after 5000 ms. -/
theorem edit_failure_all_or_nothing (st : AppState) (e : String) (now : ℕ)
    (fp ap ep : String) (w h : Int) :
    ((currentImage st).isSome = true → jsTrim st.prompt ≠ "" → st.editHotspot.isSome = true →
      FailsCleanly (handleGenerate st (.error e) now) st ("สร้างรูปภาพไม่สำเร็จ " ++ e)) ∧
    ((currentImage st).isSome = true →
      FailsCleanly (handleApplyFilter st fp (.error e) now) st ("ใช้ฟิลเตอร์ไม่สำเร็จ " ++ e)) ∧
    (∀ k : FilterKind, (currentImage st).isSome = true →
      FailsCleanly (applyCanvasFilter st k (.error e) now) st ("ใช้ฟิลเตอร์ไม่สำเร็จ " ++ e)) ∧
    ((currentImage st).isSome = true →
      FailsCleanly (handleRotate st (.error e) now) st ("หมุนภาพไม่สำเร็จ: " ++ e)) ∧
    ((currentImage st).isSome = true →
      FailsCleanly (handleApplyAdjustment st ap (.error e) now) st ("ปรับแต่งไม่สำเร็จ " ++ e)) ∧
    ((currentImage st).isSome = true →
      FailsCleanly (handleApplyAiEdit st ep (.error e) now) st
        ("แก้ไขภาพด้วย AI ไม่สำเร็จ: " ++ e)) ∧
    ((currentImage st).isSome = true → st.secondaryImage.isSome = true →
      FailsCleanly (handleApplyFaceSwap st (.error e) now) st ("สลับใบหน้าไม่สำเร็จ " ++ e)) ∧
    ((currentImage st).isSome = true →
      FailsCleanly (handleApplyResize st w h (.error e) now) st
        ("ปรับขนาดภาพไม่สำเร็จ: " ++ e)) ∧
    ((currentImage st).isSome = true →
      ¬(st.colorAdjustments.brightness = 100 ∧ st.colorAdjustments.contrast = 100 ∧
          st.colorAdjustments.saturation = 100) →
      FailsCleanly (handleApplyColorAdjustments st (.error e) now) st
        ("Failed to apply color adjustments: " ++ e)) ∧
    errorToastAutoDismissMs = 5000 := by
  refine ⟨?_, ?_, ?_, ?_, ?_, ?_, ?_, ?_, ?_, rfl⟩
  · intro hc hp hh
    obtain ⟨img, hco⟩ := Option.isSome_iff_exists.mp hc
    obtain ⟨pt, hhe⟩ := Option.isSome_iff_exists.mp hh
    simp [handleGenerate, hco, hp, hhe, Except.bind, FailsCleanly]
  · intro hc
    obtain ⟨img, hco⟩ := Option.isSome_iff_exists.mp hc
    simp [handleApplyFilter, hco, Except.bind, FailsCleanly]
  · intro k hc
    obtain ⟨img, hco⟩ := Option.isSome_iff_exists.mp hc
    simp [applyCanvasFilter, hco, Except.bind, FailsCleanly]
  · intro hc
    obtain ⟨img, hco⟩ := Option.isSome_iff_exists.mp hc
    simp [handleRotate, hco, Except.bind, FailsCleanly]
  · intro hc
    obtain ⟨img, hco⟩ := Option.isSome_iff_exists.mp hc
    simp [handleApplyAdjustment, hco, Except.bind, FailsCleanly]
  · intro hc
    obtain ⟨img, hco⟩ := Option.isSome_iff_exists.mp hc
    simp [handleApplyAiEdit, hco, Except.bind, FailsCleanly]
  · intro hc hs
    obtain ⟨img, hco⟩ := Option.isSome_iff_exists.mp hc
    obtain ⟨img2, hso⟩ := Option.isSome_iff_exists.mp hs
    simp [handleApplyFaceSwap, hco, hso, Except.bind, FailsCleanly]
  · intro hc
    obtain ⟨img, hco⟩ := Option.isSome_iff_exists.mp hc
    simp [handleApplyResize, hco, Except.bind, FailsCleanly]
  · intro hc hca
    obtain ⟨img, hco⟩ := Option.isSome_iff_exists.mp hc
    simp [handleApplyColorAdjustments, hco, hca, Except.bind, FailsCleanly]

/-- A concrete state that passes every handler guard. -/
def failWitnessState : AppState :=
  { midHistoryState with
    prompt := "fix the sky"
    editHotspot := some { x := 1, y := 2 }
    displayHotspot := some { x := 3, y := 4 } }

/-- Witness for `edit_failure_all_or_nothing` at a concrete state. -/
theorem edit_failure_all_or_nothing_witness :
    FailsCleanly (handleGenerate failWitnessState (.error "boom") 7) failWitnessState
      ("สร้างรูปภาพไม่สำเร็จ " ++ "boom") ∧
    FailsCleanly (applyCanvasFilter failWitnessState .grayscale (.error "boom") 7)
      failWitnessState ("ใช้ฟิลเตอร์ไม่สำเร็จ " ++ "boom") ∧
    FailsCleanly (handleApplyFaceSwap failWitnessState (.error "boom") 7) failWitnessState
      ("สลับใบหน้าไม่สำเร็จ " ++ "boom") ∧
    FailsCleanly (handleApplyColorAdjustments failWitnessState (.error "boom") 7)
      failWitnessState ("Failed to apply color adjustments: " ++ "boom") := by
  have h := edit_failure_all_or_nothing failWitnessState "boom" 7 "p" "p" "p" 2 2
  refine ⟨h.1 (by decide) (by decide) (by decide), ?_, ?_, ?_⟩
  · exact h.2.2.1 .grayscale (by decide)
  · exact h.2.2.2.2.2.2.1 (by decide) (by decide)
  · exact h.2.2.2.2.2.2.2.2.1 (by decide) (by decide)

/-! ### C6-C8: the client-side grayscale and sepia per-pixel transforms -/

/-- Clamping to the range `[0, 255]`, as the spec words it. -/
def clamp255 (x : ℚ) : ℚ := max 0 (min 255 x)

/-- C6.  On every pixel of the data array, the grayscale filter writes the
unweighted average `(R + G + B) / 3` to all three colour channels and leaves
the alpha channel unchanged. -/
theorem grayscale_unweighted_average (r g b a : ℚ) (rest : List ℚ) :
    filterLoop .grayscale (r :: g :: b :: a :: rest)
      = (r + g + b) / 3 :: (r + g + b) / 3 :: (r + g + b) / 3 :: a
          :: filterLoop .grayscale rest := by
  simp [filterLoop, filterPixel, grayscalePixel]

/-- C7.  On every pixel with non-negative channels, the sepia filter computes
`R' = 0.393R + 0.769G + 0.189B`, `G' = 0.349R + 0.686G + 0.168B`,
`B' = 0.272R + 0.534G + 0.131B`, each clamped to `[0, 255]` (the code only
caps at 255 with `Math.min`; the lower clamp never fires on non-negative
inputs), and leaves alpha unchanged. -/
theorem sepia_formula_clamped (r g b a : ℚ) (rest : List ℚ)
    (hr : 0 ≤ r) (hg : 0 ≤ g) (hb : 0 ≤ b) :
    filterLoop .sepia (r :: g :: b :: a :: rest)
      = clamp255 (0.393 * r + 0.769 * g + 0.189 * b)
          :: clamp255 (0.349 * r + 0.686 * g + 0.168 * b)
          :: clamp255 (0.272 * r + 0.534 * g + 0.131 * b)
          :: a :: filterLoop .sepia rest := by
  have key : ∀ c1 c2 c3 : ℚ, 0 ≤ c1 → 0 ≤ c2 → 0 ≤ c3 →
      min 255 (r * c1 + g * c2 + b * c3) = clamp255 (c1 * r + c2 * g + c3 * b) := by
    intro c1 c2 c3 h1 h2 h3
    have hnn : (0 : ℚ) ≤ r * c1 + g * c2 + b * c3 := by positivity
    rw [clamp255, max_eq_right (le_min (by norm_num) (by linarith [mul_comm r c1]))]
    ring_nf
  simp only [filterLoop, filterPixel, sepiaPixel]
  rw [key 0.393 0.769 0.189 (by norm_num) (by norm_num) (by norm_num),
    key 0.349 0.686 0.168 (by norm_num) (by norm_num) (by norm_num),
    key 0.272 0.534 0.131 (by norm_num) (by norm_num) (by norm_num)]

/-- Witness for `sepia_formula_clamped` at a concrete red pixel. -/
theorem sepia_formula_clamped_witness :
    filterLoop .sepia (255 :: 0 :: 0 :: 9 :: [])
      = clamp255 (0.393 * 255 + 0.769 * 0 + 0.189 * 0)
          :: clamp255 (0.349 * 255 + 0.686 * 0 + 0.168 * 0)
          :: clamp255 (0.272 * 255 + 0.534 * 0 + 0.131 * 0)
          :: 9 :: filterLoop .sepia [] :=
  sepia_formula_clamped 255 0 0 9 [] (by norm_num) (by norm_num) (by norm_num)

/-- C8 counterexample.  Applying the grayscale transform to its own output
coincides with a single application at a concrete pixel — the claim that the
transforms are "idempotent-free" fails for grayscale. -/
theorem grayscale_not_idempotent_free_counterexample :
    grayscalePixel (grayscalePixel { r := 1, g := 2, b := 3, a := 7 })
      = grayscalePixel { r := 1, g := 2, b := 3, a := 7 } := by
  norm_num [grayscalePixel]

/-- C8 amended.  Both per-pixel transforms are deterministic pure functions of
the input pixel (per the C6/C7 formulas); sepia is indeed not idempotent
(applying it twice differs from once on white), but grayscale IS idempotent:
a second application never changes the result. -/
theorem filter_determinism_and_idempotency :
    (∀ p : Pixel, grayscalePixel (grayscalePixel p) = grayscalePixel p) ∧
    sepiaPixel (sepiaPixel { r := 255, g := 255, b := 255, a := 255 })
      ≠ sepiaPixel { r := 255, g := 255, b := 255, a := 255 } := by
  constructor
  · intro p
    simp only [grayscalePixel, Pixel.mk.injEq]
    refine ⟨by ring, by ring, by ring, trivial⟩
  · intro hcon
    rw [Pixel.mk.injEq] at hcon
    have hB := hcon.2.2.1
    norm_num [sepiaPixel, min_def] at hB

/-! ### C9: aspect-locked resize recomputation -/

/-- C9.  With the aspect lock on, entering a positive integer width sets the
height to `round(newWidth / (originalWidth / originalHeight))`, and entering a
positive integer height sets the width to
`round(newHeight * (originalWidth / originalHeight))` (`Math.round`, i.e.
nearest integer with halves up); the entered field keeps the entered text. -/
theorem resize_aspect_lock (ow oh n m : ℕ) (st : ResizeState) (input input2 : String)
    (how : 0 < ow) (hoh : 0 < oh) (hn : 0 < n) (hm : 0 < m)
    (hL : st.isLocked = true) (hne : input ≠ "") (hne2 : input2 ≠ "")
    (hin : parseDecimal input = some n) (hin2 : parseDecimal input2 = some m) :
    (handleWidthChange ow oh st input).width = input ∧
    (handleWidthChange ow oh st input).height
      = toString (jsMathRound ((n : ℚ) / ((ow : ℚ) / (oh : ℚ)))) ∧
    (handleHeightChange ow oh st input2).height = input2 ∧
    (handleHeightChange ow oh st input2).width
      = toString (jsMathRound ((m : ℚ) * ((ow : ℚ) / (oh : ℚ)))) := by
  have har : aspectRatioOf ow oh = (ow : ℚ) / (oh : ℚ) := by
    simp [aspectRatioOf, how, hoh]
  refine ⟨?_, ?_, ?_, ?_⟩
  · simp [handleWidthChange, hL, hne, hin, hn]
  · simp [handleWidthChange, hL, hne, hin, hn, har]
  · simp [handleHeightChange, hL, hne2, hin2, hm]
  · simp [handleHeightChange, hL, hne2, hin2, hm, har]

/-- Witness for `resize_aspect_lock` with a 4:3 image. -/
theorem resize_aspect_lock_witness :
    (handleWidthChange 4 3 { width := "4", height := "3", isLocked := true } "12").height
      = toString (jsMathRound ((12 : ℚ) / ((4 : ℚ) / (3 : ℚ)))) ∧
    (handleHeightChange 4 3 { width := "4", height := "3", isLocked := true } "9").width
      = toString (jsMathRound ((9 : ℚ) * ((4 : ℚ) / (3 : ℚ)))) := by
  have h := resize_aspect_lock 4 3 12 9 { width := "4", height := "3", isLocked := true }
    "12" "9" (by decide) (by decide) (by decide) (by decide) rfl (by decide) (by decide)
    (by decide) (by decide)
  exact ⟨h.2.1, h.2.2.2⟩

/-! ### C10: `handleGenerate` guard clauses -/

/-- C10.  With no image loaded, an empty-after-trim prompt, or no selected
hotspot, `handleGenerate` only sets the corresponding error message: the
result equals the input state with just the error replaced (history, position
and loading flag untouched), and it does not depend on the service outcome —
the service is never contacted. -/
theorem handleGenerate_guards (st : AppState) (svc svc' : Except String String)
    (now now' : ℕ) :
    ((currentImage st).isNone = true →
      handleGenerate st svc now = { st with error := some "ยังไม่ได้โหลดรูปภาพเพื่อแก้ไข" } ∧
      handleGenerate st svc now = handleGenerate st svc' now') ∧
    ((currentImage st).isSome = true → jsTrim st.prompt = "" →
      handleGenerate st svc now = { st with error := some "กรุณาใส่คำอธิบายการแก้ไขของคุณ" } ∧
      handleGenerate st svc now = handleGenerate st svc' now') ∧
    ((currentImage st).isSome = true → jsTrim st.prompt ≠ "" → st.editHotspot.isNone = true →
      handleGenerate st svc now
        = { st with error := some "กรุณาคลิกบนภาพเพื่อเลือกพื้นที่ที่ต้องการแก้ไข" } ∧
      handleGenerate st svc now = handleGenerate st svc' now') := by
  refine ⟨?_, ?_, ?_⟩
  · intro hc
    rw [Option.isNone_iff_eq_none] at hc
    constructor <;> simp [handleGenerate, hc]
  · intro hc hp
    obtain ⟨img, hco⟩ := Option.isSome_iff_exists.mp hc
    constructor <;> simp [handleGenerate, hco, hp]
  · intro hc hp hh
    obtain ⟨img, hco⟩ := Option.isSome_iff_exists.mp hc
    rw [Option.isNone_iff_eq_none] at hh
    constructor <;> simp [handleGenerate, hco, hp, hh]

/-- A concrete state with an image and hotspot but a whitespace-only prompt. -/
def blankPromptState : AppState := { midHistoryState with prompt := "   " }

/-- A concrete state with an image and prompt but no hotspot. -/
def noHotspotState : AppState :=
  { midHistoryState with prompt := "fix", editHotspot := none, displayHotspot := none }

/-- Witness for `handleGenerate_guards` at concrete states. -/
theorem handleGenerate_guards_witness :
    handleGenerate initialState (.ok "u") 0
      = { initialState with error := some "ยังไม่ได้โหลดรูปภาพเพื่อแก้ไข" } ∧
    handleGenerate blankPromptState (.ok "u") 0
      = { blankPromptState with error := some "กรุณาใส่คำอธิบายการแก้ไขของคุณ" } ∧
    handleGenerate noHotspotState (.ok "u") 0
      = { noHotspotState with error := some "กรุณาคลิกบนภาพเพื่อเลือกพื้นที่ที่ต้องการแก้ไข" } := by
  refine ⟨?_, ?_, ?_⟩
  · exact ((handleGenerate_guards initialState (.ok "u") (.error "x") 0 1).1 (by decide)).1
  · exact ((handleGenerate_guards blankPromptState (.ok "u") (.error "x") 0 1).2.1
      (by decide) (by decide)).1
  · exact ((handleGenerate_guards noHotspotState (.ok "u") (.error "x") 0 1).2.2
      (by decide) (by decide) (by decide)).1

end ImageEditor
